import Mathlib

/-
Verification of the phone-agent control core: a shallow embedding of the
action parser, coordinate mapper, actuation dispatcher, retry wrapper and
agent loop, with theorems checking the documented behaviour against it.

Sources embedded:
  phone_agent/adb/device.py       (tap, double_tap, long_press, swipe, back,
                                   home, launch_app, get_current_app,
                                   get_screen_dimensions, _get_adb_prefix)
  phone_agent/adb/screenshot.py   (get_screenshot, _create_fallback_screenshot)
  phone_agent/utils.py            (retry)
Components whose defining modules are not among the provided sources
(phone_agent/actions/handler.py, phone_agent/agent.py) are modelled from the
specification; their doc comments say so explicitly.

Effects are made explicit: each subprocess invocation is a command (a list of
argv strings), and an environment value records the outcome of every attempt
(success, timeout, non-zero exit, other exception), so that control flow that
depends on those outcomes becomes a pure function of the environment.
-/

/-! ## Swipe auto-duration (phone_agent/adb/device.py, swipe lines 184-188) -/

/-- Embeds the duration computation of `swipe` when `duration_ms is None`:
`dist_sq = (start_x - end_x) ** 2 + (start_y - end_y) ** 2`,
`duration_ms = int(dist_sq / 1000)`, then
`duration_ms = max(1000, min(duration_ms, 2000))`.
Python `int(dist_sq / 1000)` truncates toward zero; `dist_sq` is a sum of
squares, hence nonnegative, so it is floor division, here `Nat` division
after `Int.toNat`. -/
def swipe_auto_duration (start_x start_y end_x end_y : Int) : Nat :=
  let dist_sq : Int := (start_x - end_x) ^ 2 + (start_y - end_y) ^ 2
  let duration_ms : Nat := dist_sq.toNat / 1000
  max 1000 (min duration_ms 2000)

/-! ## Coordinate mapper (modelled from the spec) -/

/-- Modelled from the spec: `ActionHandler._convert_relative_to_absolute` lives
in `phone_agent/actions/handler.py`, which is not among the provided source
files (only its tests are). Spec 4.2: `x_px = round(point.x * geometry.width_px
/ 1000)`, `y_px = round(point.y * geometry.height_px / 1000)`, a pure linear
scale with no aspect-ratio correction. Rounding to nearest is realised on
nonnegative integers as `(a * b + 500) / 1000` in `Nat` arithmetic. -/
def convert_relative_to_absolute (x y width height : Nat) : Nat × Nat :=
  ((x * width + 500) / 1000, (y * height + 500) / 1000)

/-! ## Claim C5 -/

/-- C5: when `swipe` is called without an explicit duration, the duration is
`clamp(((start_x - end_x)^2 + (start_y - end_y)^2) / 1000, 1000, 2000)`
milliseconds; it is monotone non-decreasing in the Euclidean distance (stated
via the squared distance, to which distance comparison is equivalent), equals
1000 ms at distance 0, never exceeds 2000 ms, and saturates at 2000 ms for
large distances (squared distance at least 2000000). -/
theorem swipe_duration_spec (sx sy ex ey sx' sy' ex' ey' : Int) :
    swipe_auto_duration sx sy ex ey =
      max 1000 (min (((sx - ex) ^ 2 + (sy - ey) ^ 2).toNat / 1000) 2000) ∧
    swipe_auto_duration sx sy sx sy = 1000 ∧
    1000 ≤ swipe_auto_duration sx sy ex ey ∧
    swipe_auto_duration sx sy ex ey ≤ 2000 ∧
    ((sx - ex) ^ 2 + (sy - ey) ^ 2 ≤ (sx' - ex') ^ 2 + (sy' - ey') ^ 2 →
      swipe_auto_duration sx sy ex ey ≤ swipe_auto_duration sx' sy' ex' ey') ∧
    (2000000 ≤ (sx - ex) ^ 2 + (sy - ey) ^ 2 →
      swipe_auto_duration sx sy ex ey = 2000) := by
  refine ⟨rfl, by simp [swipe_auto_duration], ?_, ?_, ?_, ?_⟩
  · simp only [swipe_auto_duration]
    omega
  · simp only [swipe_auto_duration]
    omega
  · intro h
    have h2 : ((sx - ex) ^ 2 + (sy - ey) ^ 2).toNat ≤
        ((sx' - ex') ^ 2 + (sy' - ey') ^ 2).toNat := Int.toNat_le_toNat h
    simp only [swipe_auto_duration]
    omega
  · intro h
    have h2 : 2000000 ≤ ((sx - ex) ^ 2 + (sy - ey) ^ 2).toNat := by
      have := Int.toNat_le_toNat h
      simpa using this
    simp only [swipe_auto_duration]
    omega

/-- Witness for C5 at concrete inputs: distance 0 gives 1000 ms and a swipe of
squared distance 9000000 saturates at 2000 ms. -/
theorem swipe_duration_spec_witness :
    swipe_auto_duration 0 0 0 0 = 1000 ∧ swipe_auto_duration 0 0 3000 0 = 2000 := by
  have h := swipe_duration_spec 0 0 3000 0 0 0 0 0
  exact ⟨(swipe_duration_spec 0 0 0 0 0 0 0 0).2.1, h.2.2.2.2.2 (by decide)⟩

/-! ## Claim C2 -/

/-- C2: coordinate mapping is the pure linear scale
`x_px = round(x * width_px / 1000)`, `y_px = round(y * height_px / 1000)`;
it is boundary-exact ((0,0) maps to (0,0) and (1000,1000) maps to (W,H) for
every positive W, H), and the three concrete instances from the tests hold:
(500,500) on 1080x2400 gives (540,1200), (500,500) on 1920x720 gives
(960,360), (100,100) on 2560x1080 gives (256,108). -/
theorem convert_relative_spec (W H : Nat) (hW : 0 < W) (hH : 0 < H) :
    (∀ px py, convert_relative_to_absolute px py W H =
        ((px * W + 500) / 1000, (py * H + 500) / 1000)) ∧
    convert_relative_to_absolute 0 0 W H = (0, 0) ∧
    convert_relative_to_absolute 1000 1000 W H = (W, H) ∧
    convert_relative_to_absolute 500 500 1080 2400 = (540, 1200) ∧
    convert_relative_to_absolute 500 500 1920 720 = (960, 360) ∧
    convert_relative_to_absolute 100 100 2560 1080 = (256, 108) := by
  refine ⟨fun _ _ => rfl, ?_, ?_, by decide, by decide, by decide⟩
  · simp [convert_relative_to_absolute]
  · simp only [convert_relative_to_absolute, Prod.mk.injEq]
    omega

/-- Witness for C2: the boundary property applied at the concrete geometry
1080x2400. -/
theorem convert_relative_spec_witness :
    convert_relative_to_absolute 1000 1000 1080 2400 = (1080, 2400) :=
  (convert_relative_spec 1080 2400 (by decide) (by decide)).2.2.1

/-! ## ADB command dispatch (phone_agent/adb/device.py) -/

/-- Embeds `_get_adb_prefix`: `["adb", "-s", device_id]` when a device id is
given, else `["adb"]`. -/
def adb_cmd_head (device_id : Option String) : List String :=
  match device_id with
  | some d => ["adb", "-s", d]
  | none => ["adb"]

/-- Embeds the single command dispatched by `tap`:
`adb_prefix + ["shell", "input", "tap", str(x), str(y)]`. -/
def tap_cmd (x y : Int) (device_id : Option String) : List String :=
  adb_cmd_head device_id ++ ["shell", "input", "tap", toString x, toString y]

/-- Embeds the command dispatched by `long_press`:
`adb_prefix + ["shell", "input", "swipe", str(x), str(y), str(x), str(y), str(duration_ms)]`. -/
def long_press_cmd (x y duration_ms : Int) (device_id : Option String) : List String :=
  adb_cmd_head device_id ++
    ["shell", "input", "swipe", toString x, toString y, toString x, toString y,
      toString duration_ms]

/-- Embeds the command dispatched by `swipe`, including the duration
resolution: an explicit `duration_ms` is used as given, otherwise the
auto-computed clamped duration. -/
def swipe_cmd (start_x start_y end_x end_y : Int) (duration_ms : Option Int)
    (device_id : Option String) : List String :=
  let d : Int :=
    match duration_ms with
    | some d => d
    | none => Int.ofNat (swipe_auto_duration start_x start_y end_x end_y)
  adb_cmd_head device_id ++
    ["shell", "input", "swipe", toString start_x, toString start_y, toString end_x,
      toString end_y, toString d]

/-- Embeds the command dispatched by `back`: key event 4. -/
def back_cmd (device_id : Option String) : List String :=
  adb_cmd_head device_id ++ ["shell", "input", "keyevent", "4"]

/-- Embeds the command dispatched by `home`: KEYCODE_HOME. -/
def home_cmd (device_id : Option String) : List String :=
  adb_cmd_head device_id ++ ["shell", "input", "keyevent", "KEYCODE_HOME"]

/-- Outcome of one `subprocess.run` invocation, as observed by the caller
through control flow: normal return, `TimeoutExpired`, `CalledProcessError`
(non-zero exit under `check=True`) or any other exception. -/
inductive CmdOutcome where
  | ok
  | timeoutExpired
  | calledProcessError
  | otherError
deriving DecidableEq

/-- Outcomes other than a normal return raise an exception in Python. -/
def outcome_raises : CmdOutcome → Bool
  | .ok => false
  | _ => true

/-- Embeds execution of the body of a `try` block that issues the given
commands in order: the n-th issued command gets outcome `env n`; the first
raising outcome aborts the rest of the block (the device functions catch it
and only log). The result is the number of commands actually issued. -/
def exec_try (env : Nat → CmdOutcome) : List (List String) → Nat
  | [] => 0
  | _ :: rest =>
    if outcome_raises (env 0) then 1
    else 1 + exec_try (fun n => env (n + 1)) rest

/-- Number of subprocess invocations made by one call to `tap`: its `try`
block issues exactly one command. All exceptions are caught and logged. -/
def tap_attempts (x y : Int) (device_id : Option String) (env : Nat → CmdOutcome) : Nat :=
  exec_try env [tap_cmd x y device_id]

/-- Number of subprocess invocations made by one call to `double_tap`: its
`try` block issues the tap command twice; an exception on the first skips the
second. -/
def double_tap_attempts (x y : Int) (device_id : Option String)
    (env : Nat → CmdOutcome) : Nat :=
  exec_try env [tap_cmd x y device_id, tap_cmd x y device_id]

/-- Number of subprocess invocations made by one call to `long_press`. -/
def long_press_attempts (x y duration_ms : Int) (device_id : Option String)
    (env : Nat → CmdOutcome) : Nat :=
  exec_try env [long_press_cmd x y duration_ms device_id]

/-- Number of subprocess invocations made by one call to `swipe`. -/
def swipe_attempts (start_x start_y end_x end_y : Int) (duration_ms : Option Int)
    (device_id : Option String) (env : Nat → CmdOutcome) : Nat :=
  exec_try env [swipe_cmd start_x start_y end_x end_y duration_ms device_id]

/-- Number of subprocess invocations made by one call to `back`. -/
def back_attempts (device_id : Option String) (env : Nat → CmdOutcome) : Nat :=
  exec_try env [back_cmd device_id]

/-- Number of subprocess invocations made by one call to `home`. -/
def home_attempts (device_id : Option String) (env : Nat → CmdOutcome) : Nat :=
  exec_try env [home_cmd device_id]

/-- Environment in which every subprocess invocation raises
`TimeoutExpired` — a retryable error kind (it is in the exception tuples used
with the retry decorator in the tests). -/
def always_timeout : Nat → CmdOutcome := fun _ => .timeoutExpired

/-! ## Claim C6 -/

/-- C6 counter-evidence: the dispatched tap command at the concrete input of
the routing test (x = 100, y = 200, default device) is
`["adb", "shell", "input", "tap", "100", "200"]`: it contains no `-d` display
flag, and `tap` in `phone_agent/adb/device.py` has no display parameter at
all, while the test `TestInputRouting.test_tap_with_display_id` (and the
claim) require the command to contain `-d` followed by the display id. The
same holds for the swipe command at the inputs of
`test_swipe_with_display_id`. -/
theorem tap_cmd_no_display_flag :
    tap_cmd 100 200 none = ["adb", "shell", "input", "tap", "100", "200"] ∧
    "-d" ∉ tap_cmd 100 200 none ∧
    swipe_cmd 100 100 200 200 (some 500) none =
      ["adb", "shell", "input", "swipe", "100", "100", "200", "200", "500"] ∧
    "-d" ∉ swipe_cmd 100 100 200 200 (some 500) none := by
  refine ⟨rfl, by decide, rfl, by decide⟩

/-! ## Claim C3 -/

/-- C3 counterexample: with the default retry configuration (retry count 3,
so a wrapped operation raising retryable errors on every attempt would be
invoked 3 + 1 = 4 times), a `tap` whose underlying command raises
`TimeoutExpired` — a retryable error kind — on every attempt still performs
exactly one subprocess invocation: it is never re-attempted, because no
device-control primitive in `phone_agent/adb/device.py` is wrapped with the
retry decorator. -/
theorem tap_not_retried :
    tap_attempts 100 200 none always_timeout = 1 ∧
    ¬ 2 ≤ tap_attempts 100 200 none always_timeout ∧
    ¬ tap_attempts 100 200 none always_timeout = 3 + 1 := by
  refine ⟨rfl, by decide, by decide⟩

/-- C3 amended: no device-control primitive is wrapped in the retry wrapper.
For every environment of attempt outcomes — in particular when every attempt
raises a retryable error — `tap`, `swipe`, `long_press`, `back` and `home`
issue exactly one subprocess command per call, and `double_tap` at most two
(its two distinct sub-commands, not re-attempts); the raised error is caught
inside the primitive and never triggers another invocation. -/
theorem primitives_single_attempt (x y sx sy ex ey d : Int) (dev : Option String)
    (dur : Option Int) (env : Nat → CmdOutcome) :
    tap_attempts x y dev env = 1 ∧
    swipe_attempts sx sy ex ey dur dev env = 1 ∧
    long_press_attempts x y d dev env = 1 ∧
    back_attempts dev env = 1 ∧
    home_attempts dev env = 1 ∧
    double_tap_attempts x y dev env ≤ 2 := by
  have h1 : ∀ c : List String, exec_try env [c] = 1 := by
    intro c
    simp only [exec_try]
    by_cases h : outcome_raises (env 0) <;> simp [h]
  refine ⟨h1 _, h1 _, h1 _, h1 _, h1 _, ?_⟩
  simp only [double_tap_attempts, exec_try]
  by_cases h : outcome_raises (env 0) <;>
    by_cases h2 : outcome_raises (env 1) <;> simp [h, h2]

/-! ## App launch (phone_agent/adb/device.py, launch_app) -/

/-- Embeds the launch command:
`adb_prefix + ["shell", "monkey", "-p", package, "-c", "android.intent.category.LAUNCHER", "1"]`. -/
def monkey_cmd (package : String) (device_id : Option String) : List String :=
  adb_cmd_head device_id ++
    ["shell", "monkey", "-p", package, "-c", "android.intent.category.LAUNCHER", "1"]

/-- Embeds the Python dict membership and subscript on `APP_PACKAGES` as
lookup in an association list (dict iteration order is insertion order). The
`APP_PACKAGES` constant itself lives in `phone_agent/config/apps.py`, which is
not among the provided sources, so the registry is passed as data; every
theorem quantifies over it. -/
def lookup_app (registry : List (String × String)) (app_name : String) : Option String :=
  (registry.find? (fun p => p.1 = app_name)).map (·.2)

/-- Embeds `launch_app`: an unregistered name returns `False` before any
command is built; otherwise the monkey launch command is dispatched once and
the call returns `True` on a normal return, `False` when the command raises
(timeout, non-zero exit, or any other exception — all caught). The second
component is the list of commands actually dispatched. -/
def launch_app (registry : List (String × String)) (app_name : String)
    (device_id : Option String) (env : Nat → CmdOutcome) : Bool × List (List String) :=
  match lookup_app registry app_name with
  | none => (false, [])
  | some package =>
    match env 0 with
    | .ok => (true, [monkey_cmd package device_id])
    | _ => (false, [monkey_cmd package device_id])

/-! ## Claim C9 -/

/-- C9: for every app name that is not a key of the registry, `launch_app`
returns `False` without dispatching any device command (and, being a total
function of the environment, without raising); for a registered name it
dispatches exactly one launch command and returns `True` exactly when that
command succeeds. -/
theorem launch_app_spec (registry : List (String × String)) (app_name : String)
    (device_id : Option String) (env : Nat → CmdOutcome) :
    (lookup_app registry app_name = none →
      launch_app registry app_name device_id env = (false, [])) ∧
    (∀ package, lookup_app registry app_name = some package →
      (launch_app registry app_name device_id env).2 = [monkey_cmd package device_id] ∧
      ((launch_app registry app_name device_id env).1 = true ↔ env 0 = .ok)) := by
  constructor
  · intro h
    simp [launch_app, h]
  · intro package h
    cases henv : env 0 <;> simp [launch_app, h, henv]

/-- Witness for C9 at a concrete registry: an unregistered name dispatches
nothing, a registered name dispatches the monkey command and succeeds in an
all-ok environment. -/
theorem launch_app_spec_witness :
    launch_app [("Chrome", "com.android.chrome")] "NoSuchApp" none (fun _ => .ok) =
      (false, []) ∧
    (launch_app [("Chrome", "com.android.chrome")] "Chrome" none (fun _ => .ok)).2 =
      [monkey_cmd "com.android.chrome" none] := by
  constructor
  · exact (launch_app_spec [("Chrome", "com.android.chrome")] "NoSuchApp" none
      (fun _ => .ok)).1 (by decide)
  · exact ((launch_app_spec [("Chrome", "com.android.chrome")] "Chrome" none
      (fun _ => .ok)).2 "com.android.chrome" (by decide)).1

/-! ## Retry wrapper (phone_agent/utils.py, retry) -/

/-- Error raised by one attempt of a wrapped operation. `retryable` records
whether the error type is in the `exceptions` tuple handed to the decorator
(the only errors its `except exceptions` clause catches); `code`
distinguishes error instances. -/
structure RetryErr where
  retryable : Bool
  code : Nat
deriving DecidableEq

/-- Embeds the `while True` loop of the decorated wrapper. `f i` is the
outcome of the i-th call of the wrapped function; `remaining` is
`retries - current_retries`. A success returns immediately; an error not in
the `exceptions` tuple is not caught and propagates; a caught error with no
retries remaining (`current_retries > retries` after the increment) re-raises;
otherwise the wrapper sleeps and loops. The second component counts the calls
made. Sleeping and the backoff-updated delay have no observable effect on the
result and are not modelled. -/
def retry_go (f : Nat → Except RetryErr α) : Nat → Nat → Except RetryErr α × Nat
  | attempt, remaining =>
    match f attempt with
    | .ok v => (.ok v, attempt + 1)
    | .error e =>
      if e.retryable then
        match remaining with
        | 0 => (.error e, attempt + 1)
        | r + 1 => retry_go f (attempt + 1) r
      else (.error e, attempt + 1)
  termination_by _ remaining => remaining

/-- Embeds one call of a function wrapped by `retry(retries=retries, ...)`:
the loop starts with `current_retries = 0`, so `retries` re-attempts remain. -/
def retry_run (retries : Nat) (f : Nat → Except RetryErr α) : Except RetryErr α × Nat :=
  retry_go f 0 retries

/-- Attempt outcome that the wrapper catches and re-attempts: an error whose
kind is in the configured exception tuple. -/
def is_retryable_fail : Except RetryErr α → Bool
  | .error e => e.retryable
  | .ok _ => false

/-- Helper: when every attempt in the window fails retryably, the loop makes
exactly `remaining + 1` further calls and returns the last error. -/
theorem retry_go_all_fail (f : Nat → Except RetryErr α) (a r : Nat)
    (h : ∀ i, i ≤ r → is_retryable_fail (f (a + i)) = true) :
    retry_go f a r = (f (a + r), a + r + 1) := by
  induction r generalizing a with
  | zero =>
    have h0 := h 0 (Nat.le_refl 0)
    rw [Nat.add_zero] at h0
    rw [retry_go]
    simp only [Nat.add_zero]
    cases hf : f a with
    | ok v => simp [hf, is_retryable_fail] at h0
    | error e =>
      rw [hf] at h0
      simp only [is_retryable_fail] at h0
      simp [h0]
  | succ r ih =>
    have h0 := h 0 (Nat.zero_le _)
    rw [Nat.add_zero] at h0
    rw [retry_go]
    cases hf : f a with
    | ok v => simp [hf, is_retryable_fail] at h0
    | error e =>
      rw [hf] at h0
      simp only [is_retryable_fail] at h0
      simp only [h0, if_true]
      have h2 := ih (a + 1) (fun i hi => by
        have := h (i + 1) (Nat.succ_le_succ hi)
        simpa [Nat.add_assoc, Nat.add_comm 1 i] using this)
      rw [h2, show a + 1 + r = a + (r + 1) by omega]

/-- Helper: when the first `k` attempts in the window fail retryably and
attempt `k` does not (it succeeds, or raises an uncaught error), the loop
stops at attempt `k`, having made `k + 1` further calls, returning `f (a + k)`. -/
theorem retry_go_first_stop (f : Nat → Except RetryErr α) (k : Nat) :
    ∀ a r, k ≤ r → (∀ i, i < k → is_retryable_fail (f (a + i)) = true) →
    is_retryable_fail (f (a + k)) = false →
    retry_go f a r = (f (a + k), a + k + 1) := by
  induction k with
  | zero =>
    intro a r _ _ hstop
    simp only [Nat.add_zero] at hstop ⊢
    rw [retry_go]
    cases hf : f a with
    | ok v => rfl
    | error e =>
      rw [hf] at hstop
      simp only [is_retryable_fail] at hstop
      simp [hstop]
  | succ k ih =>
    intro a r hk hfail hstop
    have h0 := hfail 0 (Nat.succ_pos k)
    rw [Nat.add_zero] at h0
    obtain ⟨r', rfl⟩ : ∃ r', r = r' + 1 := ⟨r - 1, by omega⟩
    rw [retry_go]
    cases hf : f a with
    | ok v => simp [hf, is_retryable_fail] at h0
    | error e =>
      rw [hf] at h0
      simp only [is_retryable_fail] at h0
      simp only [h0, if_true]
      have h2 := ih (a + 1) r' (by omega)
        (fun i hi => by
          have := hfail (i + 1) (Nat.succ_lt_succ hi)
          simpa [Nat.add_assoc, Nat.add_comm 1 i] using this)
        (by
          have he : a + 1 + k = a + (k + 1) := by omega
          rw [he]
          exact hstop)
      rw [h2, show a + 1 + k = a + (k + 1) by omega]

/-! ## Claim C4 -/

/-- C4: for every operation wrapped with `retries = r`: if every attempt
raises a retryable error, the operation is invoked exactly `r + 1` times and
the last underlying error propagates; if the first `k` attempts fail
retryably and attempt `k` (with `k ≤ r`) succeeds, the wrapper returns that
value after exactly `k + 1` calls; and an error whose kind is not in the
retryable set propagates immediately after exactly `k + 1` calls, without
consuming a retry. -/
theorem retry_wrapper_spec (r : Nat) (f : Nat → Except RetryErr α) :
    ((∀ i, i ≤ r → is_retryable_fail (f i) = true) →
      retry_run r f = (f r, r + 1)) ∧
    (∀ k, k ≤ r → (∀ i, i < k → is_retryable_fail (f i) = true) →
      (∀ v, f k = .ok v → retry_run r f = (.ok v, k + 1)) ∧
      (∀ e, f k = .error e → e.retryable = false →
        retry_run r f = (.error e, k + 1))) := by
  constructor
  · intro h
    have := retry_go_all_fail f 0 r (fun i hi => by simpa using h i hi)
    simpa [retry_run] using this
  · intro k hk hfail
    constructor
    · intro v hv
      have := retry_go_first_stop f k 0 r hk
        (fun i hi => by simpa using hfail i hi)
        (by simp [hv, is_retryable_fail])
      simpa [retry_run, hv] using this
    · intro e he hre
      have := retry_go_first_stop f k 0 r hk
        (fun i hi => by simpa using hfail i hi)
        (by simp [he, is_retryable_fail, hre])
      simpa [retry_run, he] using this

/-- Witness for C4 at concrete inputs, mirroring the two retry tests: a
function failing retryably on attempts 0 and 1 then succeeding, wrapped with
`retries = 3`, is called exactly 3 times and returns the success value; a
function failing retryably on every attempt with `retries = 2` is called
exactly 3 times and the final error propagates. -/
theorem retry_wrapper_spec_witness :
    retry_run 3 (fun i => if i < 2 then .error ⟨true, i⟩ else .ok 7) = (.ok 7, 3) ∧
    retry_run 2 (fun _ => (.error ⟨true, 0⟩ : Except RetryErr Nat)) =
      (.error ⟨true, 0⟩, 3) := by
  constructor
  · exact ((retry_wrapper_spec 3 (fun i => if i < 2 then .error ⟨true, i⟩ else .ok 7)).2
      2 (by decide) (fun i hi => by interval_cases i <;> decide)).1 7 rfl
  · exact (retry_wrapper_spec 2 (fun _ => (.error ⟨true, 0⟩ : Except RetryErr Nat))).1
      (fun i _ => rfl)

/-! ## Foreground app query (phone_agent/adb/device.py, get_current_app) -/

/-- Embeds the Python substring test `needle in hay`: the character sequence
of the needle is a contiguous infix of the character sequence of the
haystack. -/
def str_contains (hay needle : String) : Bool :=
  decide (needle.data <:+: hay.data)

/-- Embeds the line filter `"mCurrentFocus" in line or "mFocusedApp" in line`. -/
def is_focus_line (line : String) : Bool :=
  str_contains line "mCurrentFocus" || str_contains line "mFocusedApp"

/-- Embeds the inner loop `for app_name, package in APP_PACKAGES.items(): if
package in line: return app_name` — the first registry entry whose package is
a substring of the line. -/
def find_app_in_line (registry : List (String × String)) (line : String) : Option String :=
  (registry.find? (fun p => str_contains line p.2)).map (·.1)

/-- Embeds the outer loop of `get_current_app` over `output.split("\n")`:
non-focus lines are skipped, a focus line matching no registered package does
not stop the scan, and the fall-through returns "System Home". -/
def scan_focus_lines (registry : List (String × String)) : List String → String
  | [] => "System Home"
  | line :: rest =>
    if is_focus_line line then
      match find_app_in_line registry line with
      | some name => name
      | none => scan_focus_lines registry rest
    else scan_focus_lines registry rest

/-- Outcome of the `subprocess.run(... dumpsys window ...)` call in
`get_current_app`: a completed process with its exit code and stdout, a
`TimeoutExpired`, or any other exception. -/
inductive ShellResult where
  | completed (returncode : Int) (stdout : String)
  | timeoutExpired
  | otherError
deriving DecidableEq

/-- Embeds `get_current_app`: a non-zero exit code, a timeout or any other
exception short-circuits to "System Home"; otherwise stdout is scanned line
by line. -/
def get_current_app (registry : List (String × String)) (res : ShellResult) : String :=
  match res with
  | .completed rc out =>
    if rc ≠ 0 then "System Home"
    else scan_focus_lines registry (out.splitOn "\n")
  | .timeoutExpired => "System Home"
  | .otherError => "System Home"

/-- Helper: a scan either falls through to "System Home" or returns the name
of a registry entry whose package occurs in some focus line of the scanned
output. -/
theorem scan_focus_lines_spec (registry : List (String × String)) :
    ∀ lines : List String,
    scan_focus_lines registry lines = "System Home" ∨
    ∃ package line, (scan_focus_lines registry lines, package) ∈ registry ∧
      line ∈ lines ∧ is_focus_line line = true ∧ str_contains line package = true := by
  intro lines
  induction lines with
  | nil => exact Or.inl rfl
  | cons line rest ih =>
    by_cases hf : is_focus_line line
    · cases hfind : find_app_in_line registry line with
      | none =>
        rw [show scan_focus_lines registry (line :: rest) = scan_focus_lines registry rest by
          simp [scan_focus_lines, hf, hfind]]
        rcases ih with h | ⟨package, l, hmem, hl, hfl, hc⟩
        · exact Or.inl h
        · exact Or.inr ⟨package, l, hmem, List.mem_cons_of_mem _ hl, hfl, hc⟩
      | some name =>
        obtain ⟨p, hp, hpc⟩ : ∃ p, registry.find? (fun q => str_contains line q.2) = some p ∧
            p.1 = name := by
          unfold find_app_in_line at hfind
          cases hq : registry.find? (fun q => str_contains line q.2) with
          | none => rw [hq] at hfind; simp at hfind
          | some p => rw [hq] at hfind; simp at hfind; exact ⟨p, rfl, hfind⟩
        refine Or.inr ⟨p.2, line, ?_, List.mem_cons_self _ _, hf,
          by simpa using List.find?_some hp⟩
        rw [show scan_focus_lines registry (line :: rest) = name by
          simp [scan_focus_lines, hf, hfind]]
        rw [← hpc]
        exact List.mem_of_find?_eq_some hp
    · rw [show scan_focus_lines registry (line :: rest) = scan_focus_lines registry rest by
        simp [scan_focus_lines, hf]]
      rcases ih with h | ⟨package, l, hmem, hl, hfl, hc⟩
      · exact Or.inl h
      · exact Or.inr ⟨package, l, hmem, List.mem_cons_of_mem _ hl, hfl, hc⟩

/-! ## Claim C10 -/

/-- C10: `get_current_app` is total (a function of the recorded shell
outcome): a timeout, any other exception, or a non-zero exit code yields
"System Home"; in every case the result is either "System Home" or the name
of a registry entry whose package occurs in a focus line
(`mCurrentFocus` / `mFocusedApp`) of the window dump output. -/
theorem get_current_app_spec (registry : List (String × String)) (res : ShellResult) :
    get_current_app registry .timeoutExpired = "System Home" ∧
    get_current_app registry .otherError = "System Home" ∧
    (∀ rc out, rc ≠ 0 → get_current_app registry (.completed rc out) = "System Home") ∧
    (get_current_app registry res = "System Home" ∨
      ∃ package line out rc, res = .completed rc out ∧
        (get_current_app registry res, package) ∈ registry ∧
        line ∈ out.splitOn "\n" ∧ is_focus_line line = true ∧
        str_contains line package = true) := by
  refine ⟨rfl, rfl, fun rc out h => by simp [get_current_app, h], ?_⟩
  cases res with
  | timeoutExpired => exact Or.inl rfl
  | otherError => exact Or.inl rfl
  | completed rc out =>
    by_cases hrc : rc = 0
    · subst hrc
      have h : get_current_app registry (.completed 0 out) =
          scan_focus_lines registry (out.splitOn "\n") := by
        simp [get_current_app]
      rcases scan_focus_lines_spec registry (out.splitOn "\n") with hs |
        ⟨package, line, hmem, hl, hfl, hc⟩
      · exact Or.inl (h.trans hs)
      · exact Or.inr ⟨package, line, out, 0, rfl, h ▸ hmem, hl, hfl, hc⟩
    · exact Or.inl (by simp [get_current_app, hrc])

/-- Witness for C10 at concrete inputs: a non-zero exit code falls back to
"System Home", and so does a timeout. -/
theorem get_current_app_spec_witness :
    get_current_app [("Chrome", "com.android.chrome")] (.completed 1 "") =
      "System Home" ∧
    get_current_app [("Chrome", "com.android.chrome")] .timeoutExpired =
      "System Home" := by
  constructor
  · exact (get_current_app_spec [("Chrome", "com.android.chrome")]
      (.completed 1 "")).2.2.1 1 "" (by decide)
  · exact (get_current_app_spec [("Chrome", "com.android.chrome")]
      .timeoutExpired).1

/-! ## Screen dimension query (phone_agent/adb/device.py, get_screen_dimensions) -/

/-- Outcome of one dimension-query strategy of `get_screen_dimensions` (`wm
size`, respectively `dumpsys display`). `size w h` — the strategy completed
and parsed a width and height. `caughtFail` — the strategy raised one of the
exception kinds its `except` tuple catches (`CalledProcessError`,
`TimeoutExpired`, `ValueError`), or completed without parsing a size; either
way control falls through. `uncaughtExn` — the strategy raised an exception
kind outside that tuple, for example `FileNotFoundError` when the adb binary
is absent, or the `IndexError` reachable in the dumpsys parse when no `x`
follows `app` in the matched line; such an exception propagates out of
`get_screen_dimensions`. -/
inductive DimOutcome where
  | size (w h : Nat)
  | caughtFail
  | uncaughtExn
deriving DecidableEq

/-- Embeds `get_screen_dimensions`: the first strategy's parsed size is
returned; on its caught failure the second strategy is tried; exhausting both
returns `None`; an uncaught exception from either strategy propagates (the
error branch). -/
def get_screen_dimensions (wm dumpsys : DimOutcome) :
    Except Unit (Option (Nat × Nat)) :=
  match wm with
  | .size w h => .ok (some (w, h))
  | .uncaughtExn => .error ()
  | .caughtFail =>
    match dumpsys with
    | .size w h => .ok (some (w, h))
    | .uncaughtExn => .error ()
    | .caughtFail => .ok none

/-- Whether a dimension query with these strategy outcomes raises. -/
def dims_raise (wm dumpsys : DimOutcome) : Bool :=
  match get_screen_dimensions wm dumpsys with
  | .error _ => true
  | .ok _ => false

/-! ## Screenshot capture (phone_agent/adb/screenshot.py) -/

/-- Result type of `get_screenshot`, mirroring the `Screenshot` dataclass.
The base64 pixel payload carries no control-flow information and is not
modelled. -/
structure Screenshot where
  width : Nat
  height : Nat
  is_sensitive : Bool
deriving DecidableEq

/-- Environment recording the outcomes of the steps of one `get_screenshot`
call. `screencap` is `none` when the `screencap` subprocess call itself
raises (for example a timeout, or `FileNotFoundError` when adb is absent),
and `some out` with `out = stdout + stderr` when it completes. `later_exn`
records an exception raised after the screencap completed (during pull,
cleanup, or image decoding); `pull_ok` records that the pull returned exit
code 0 and the pulled file exists; `image_size` is the size read from the
pulled image. The function can call `get_screen_dimensions` at two distinct
sites — building a fallback inside the `try` block, and building one inside
the `except` handler — so the environment carries strategy outcomes for each
site separately. -/
structure ScreenshotEnv where
  screencap : Option String
  later_exn : Bool
  pull_ok : Bool
  image_size : Nat × Nat
  wm_try : DimOutcome
  dumpsys_try : DimOutcome
  wm_handler : DimOutcome
  dumpsys_handler : DimOutcome

/-- Embeds the blocked-capture test:
`"Status: -1" in output or "Failed" in output`. -/
def capture_blocked (out : String) : Bool :=
  str_contains out "Status: -1" || str_contains out "Failed"

/-- Embeds `_create_fallback_screenshot`: a flat image sized to the device
dimensions when they can be retrieved, else to the default 1920x1080, flagged
with the given sensitivity. The function has no handler of its own, so an
exception propagating out of `get_screen_dimensions` propagates from here
too. -/
def create_fallback_screenshot (sensitive : Bool) (wm dumpsys : DimOutcome) :
    Except Unit Screenshot :=
  match get_screen_dimensions wm dumpsys with
  | .error e => .error e
  | .ok (some (w, h)) => .ok ⟨w, h, sensitive⟩
  | .ok none => .ok ⟨1920, 1080, sensitive⟩

/-- Embeds `get_screenshot`. Inside the `try` block: a completed screencap
whose output signals a blocked capture returns a sensitive fallback; a
failed pull returns a non-sensitive fallback; otherwise the decoded image is
returned with `is_sensitive = False`. Any exception raised inside the `try`
block — including by the screencap call itself, by a later step, or by a
fallback construction at the in-`try` site — is caught by the
`except Exception` handler, which builds a non-sensitive fallback at the
handler site. An exception raised by that handler-site fallback escapes
`get_screenshot` (the error branch): the source can raise. -/
def get_screenshot (env : ScreenshotEnv) : Except Unit Screenshot :=
  let handler_fallback :=
    create_fallback_screenshot false env.wm_handler env.dumpsys_handler
  match env.screencap with
  | none => handler_fallback
  | some out =>
    if capture_blocked out then
      match create_fallback_screenshot true env.wm_try env.dumpsys_try with
      | .ok s => .ok s
      | .error _ => handler_fallback
    else if env.later_exn then handler_fallback
    else if !env.pull_ok then
      match create_fallback_screenshot false env.wm_try env.dumpsys_try with
      | .ok s => .ok s
      | .error _ => handler_fallback
    else .ok ⟨env.image_size.1, env.image_size.2, false⟩

/-! ## Claim C7 -/

/-- C7 counterexample: `get_screenshot` can raise. With the adb binary
absent, the screencap call raises `FileNotFoundError` (caught by the
handler), and the handler's fallback construction calls
`get_screen_dimensions`, whose `wm size` strategy raises the same
`FileNotFoundError` — a kind outside its `(CalledProcessError,
TimeoutExpired, ValueError)` tuple — which propagates out of the
`except Exception` handler: no Screenshot is returned for this failure of
the underlying capture. -/
theorem get_screenshot_can_raise :
    get_screenshot
      ⟨none, false, true, (1080, 2400), .uncaughtExn, .caughtFail,
        .uncaughtExn, .caughtFail⟩ = .error () ∧
    ∀ s : Screenshot,
      get_screenshot
        ⟨none, false, true, (1080, 2400), .uncaughtExn, .caughtFail,
          .uncaughtExn, .caughtFail⟩ ≠ .ok s := by
  refine ⟨rfl, fun s h => by cases h⟩

/-- C7 amended: whenever the fallback construction itself does not raise —
that is, the dimension query raises no exception kind outside the tuples
`get_screen_dimensions` catches, at either call site — `get_screenshot`
returns a Screenshot for every outcome of the underlying capture, and the
returned Screenshot has `is_sensitive = true` exactly when the completed
screencap output contained "Status: -1" or "Failed", never on a generic
failure (capture exception, pull failure, or decode error). -/
theorem get_screenshot_fallback_spec (env : ScreenshotEnv)
    (h1 : dims_raise env.wm_try env.dumpsys_try = false)
    (h2 : dims_raise env.wm_handler env.dumpsys_handler = false) :
    (∃ s, get_screenshot env = .ok s) ∧
    (∀ s, get_screenshot env = .ok s →
      (s.is_sensitive = true ↔
        ∃ out, env.screencap = some out ∧ capture_blocked out = true)) ∧
    (env.screencap = none →
      get_screenshot env =
        create_fallback_screenshot false env.wm_handler env.dumpsys_handler) ∧
    (∀ out, env.screencap = some out → capture_blocked out = true →
      get_screenshot env =
        create_fallback_screenshot true env.wm_try env.dumpsys_try) ∧
    (∀ out, env.screencap = some out → capture_blocked out = false →
      env.later_exn = true ∨ env.pull_ok = false →
      ∃ s, get_screenshot env = .ok s ∧ s.is_sensitive = false) := by
  have hfb1 : ∀ b, ∃ s, create_fallback_screenshot b env.wm_try env.dumpsys_try =
      .ok s ∧ s.is_sensitive = b := by
    intro b
    unfold dims_raise at h1
    unfold create_fallback_screenshot
    cases hd : get_screen_dimensions env.wm_try env.dumpsys_try with
    | error e => rw [hd] at h1; cases h1
    | ok o =>
      cases o with
      | none => exact ⟨⟨1920, 1080, b⟩, rfl, rfl⟩
      | some p => cases p with | mk w h => exact ⟨⟨w, h, b⟩, rfl, rfl⟩
  have hfb2 : ∀ b, ∃ s, create_fallback_screenshot b env.wm_handler env.dumpsys_handler =
      .ok s ∧ s.is_sensitive = b := by
    intro b
    unfold dims_raise at h2
    unfold create_fallback_screenshot
    cases hd : get_screen_dimensions env.wm_handler env.dumpsys_handler with
    | error e => rw [hd] at h2; cases h2
    | ok o =>
      cases o with
      | none => exact ⟨⟨1920, 1080, b⟩, rfl, rfl⟩
      | some p => cases p with | mk w h => exact ⟨⟨w, h, b⟩, rfl, rfl⟩
  obtain ⟨sh, hsh, hshs⟩ := hfb2 false
  refine ⟨?_, ?_, ?_, ?_, ?_⟩
  · cases hs : env.screencap with
    | none => exact ⟨sh, by simp [get_screenshot, hs, hsh]⟩
    | some out =>
      by_cases hb : capture_blocked out
      · obtain ⟨st, hst, _⟩ := hfb1 true
        exact ⟨st, by simp [get_screenshot, hs, hb, hst]⟩
      · by_cases hl : env.later_exn
        · exact ⟨sh, by simp [get_screenshot, hs, hb, hl, hsh]⟩
        · by_cases hp : env.pull_ok
          · exact ⟨⟨env.image_size.1, env.image_size.2, false⟩,
              by simp [get_screenshot, hs, hb, hl, hp]⟩
          · obtain ⟨st, hst, _⟩ := hfb1 false
            exact ⟨st, by simp [get_screenshot, hs, hb, hl, hp, hst]⟩
  · intro s hok
    cases hs : env.screencap with
    | none =>
      rw [show s = sh by
        have := hok
        rw [show get_screenshot env =
            create_fallback_screenshot false env.wm_handler env.dumpsys_handler by
              simp [get_screenshot, hs], hsh] at this
        exact (Except.ok.injEq .. ▸ this).symm]
      simp only [hshs]
      constructor
      · intro hcontra
        simp at hcontra
      · rintro ⟨out, hout, _⟩
        simp [hs] at hout
    | some out =>
      by_cases hb : capture_blocked out
      · obtain ⟨st, hst, hsts⟩ := hfb1 true
        rw [show get_screenshot env = .ok st by
          simp [get_screenshot, hs, hb, hst]] at hok
        cases hok
        simp only [hsts, true_iff]
        exact ⟨out, by simp [hs], hb⟩
      · have hfalse : ∀ s2, get_screenshot env = .ok s2 → s2.is_sensitive = false := by
          intro s2 h2ok
          by_cases hl : env.later_exn
          · rw [show get_screenshot env = .ok sh by
              simp [get_screenshot, hs, hb, hl, hsh]] at h2ok
            cases h2ok
            exact hshs
          · by_cases hp : env.pull_ok
            · rw [show get_screenshot env =
                  .ok ⟨env.image_size.1, env.image_size.2, false⟩ by
                simp [get_screenshot, hs, hb, hl, hp]] at h2ok
              cases h2ok
              rfl
            · obtain ⟨st, hst, hsts⟩ := hfb1 false
              rw [show get_screenshot env = .ok st by
                simp [get_screenshot, hs, hb, hl, hp, hst]] at h2ok
              cases h2ok
              exact hsts
        rw [hfalse s hok]
        simp only [Bool.false_eq_true, false_iff]
        rintro ⟨out2, hout2, hb2⟩
        simp [hs] at hout2
        subst hout2
        exact absurd hb2 (by simp [hb])
  · intro hs
    simp [get_screenshot, hs, hsh]
  · intro out hs hb
    obtain ⟨st, hst, _⟩ := hfb1 true
    simp [get_screenshot, hs, hb, hst]
  · intro out hs hb hfail
    rcases hfail with hl | hp
    · exact ⟨sh, by simp [get_screenshot, hs, hb, hl, hsh], hshs⟩
    · obtain ⟨st, hst, hsts⟩ := hfb1 false
      by_cases hl : env.later_exn
      · exact ⟨sh, by simp [get_screenshot, hs, hb, hl, hsh], hshs⟩
      · exact ⟨st, by simp [get_screenshot, hs, hb, hl, hp, hst], hsts⟩

/-- Witness for the amended C7 at concrete environments: a screencap output
containing "Status: -1" with a working dimension query yields a sensitive
fallback, and a screencap that raised (with a working dimension query)
yields the non-sensitive handler fallback. -/
theorem get_screenshot_fallback_spec_witness :
    get_screenshot
      ⟨some "Status: -1", false, true, (1080, 2400), .size 1920 720,
        .caughtFail, .size 1920 720, .caughtFail⟩ =
      create_fallback_screenshot true (.size 1920 720) .caughtFail ∧
    get_screenshot
      ⟨none, false, true, (1080, 2400), .caughtFail, .caughtFail,
        .caughtFail, .caughtFail⟩ =
      create_fallback_screenshot false .caughtFail .caughtFail := by
  constructor
  · exact (get_screenshot_fallback_spec
      ⟨some "Status: -1", false, true, (1080, 2400), .size 1920 720,
        .caughtFail, .size 1920 720, .caughtFail⟩ rfl rfl).2.2.2.1
      "Status: -1" rfl (by decide)
  · exact (get_screenshot_fallback_spec
      ⟨none, false, true, (1080, 2400), .caughtFail, .caughtFail,
        .caughtFail, .caughtFail⟩ rfl rfl).2.2.1 rfl

/-! ## Agent loop (modelled from the spec) -/

/-- Modelled from the spec: the agent loop lives in `phone_agent/agent.py`,
which is not among the provided source files (only its integration test is).
One decision of the model per cycle, as seen by the loop after parsing: an
actuation (with the outcome of acting on it), a parse failure (surfaced as a
failed step, the loop continues), or a finish signal carrying the completion
message. -/
inductive ModelDecision where
  | act (success : Bool)
  | parseFailure
  | finish (message : String)
deriving DecidableEq

/-- Result of one agent run: a finish message, or abortion at the step
ceiling. The `steps` field is the final `step_count`. -/
inductive RunResult where
  | finished (message : String) (steps : Nat)
  | stepLimitExceeded (steps : Nat)
deriving DecidableEq

/-- Final step count of a run result. -/
def run_steps : RunResult → Nat
  | .finished _ s => s
  | .stepLimitExceeded s => s

/-- Modelled from the spec (4.5): the loop body from a given `step_count`
with `remaining = max_steps - step_count` budget. Each cycle perceives,
queries the model (`model step` is the parsed decision of the cycle with
that step count), increments the step count exactly once — whether the
decision was an actuation that succeeded, one that failed, or a parse
failure — and stops successfully on a finish signal. An exhausted budget
terminates the run with the step-limit abort at the current step count. -/
def run_from (model : Nat → ModelDecision) (step : Nat) : Nat → RunResult
  | 0 => .stepLimitExceeded step
  | remaining + 1 =>
    match model step with
    | .finish msg => .finished msg (step + 1)
    | _ => run_from model (step + 1) remaining

/-- Modelled from the spec: one agent run starts at `step_count = 0` with a
budget of `max_steps` cycles. -/
def agent_run (max_steps : Nat) (model : Nat → ModelDecision) : RunResult :=
  run_from model 0 max_steps

/-- Helper: a model that never finishes drives the loop to the step limit,
with the final step count equal to the starting count plus the budget. -/
theorem run_from_no_finish (model : Nat → ModelDecision)
    (h : ∀ i msg, model i ≠ .finish msg) :
    ∀ remaining step, run_from model step remaining = .stepLimitExceeded (step + remaining) := by
  intro remaining
  induction remaining with
  | zero => intro step; rfl
  | succ r ih =>
    intro step
    cases hm : model step with
    | act b =>
      simp only [run_from, hm]
      rw [ih (step + 1)]
      congr 1
      omega
    | parseFailure =>
      simp only [run_from, hm]
      rw [ih (step + 1)]
      congr 1
      omega
    | finish msg => exact absurd hm (h step msg)

/-- Helper: the final step count never exceeds the starting count plus the
remaining budget. -/
theorem run_from_steps_le (model : Nat → ModelDecision) :
    ∀ remaining step, run_steps (run_from model step remaining) ≤ step + remaining := by
  intro remaining
  induction remaining with
  | zero => intro step; simp [run_from, run_steps]
  | succ r ih =>
    intro step
    cases hm : model step with
    | act b =>
      simp only [run_from, hm]
      have := ih (step + 1)
      omega
    | parseFailure =>
      simp only [run_from, hm]
      have := ih (step + 1)
      omega
    | finish msg =>
      simp only [run_from, hm, run_steps]
      omega

/-! ## Claim C8 -/

/-- C8: for every run in which the model never returns a finish action, the
agent loop terminates with the step-limit abort exactly at
`step_count = max_steps`; the final step count never exceeds `max_steps` for
any model; and the step count advances exactly once per completed
perceive-decide-act cycle, regardless of whether acting succeeded, failed,
or the decision was a parse failure. -/
theorem agent_loop_step_limit (max_steps : Nat) (model : Nat → ModelDecision) :
    ((∀ i msg, model i ≠ .finish msg) →
      agent_run max_steps model = .stepLimitExceeded max_steps) ∧
    run_steps (agent_run max_steps model) ≤ max_steps ∧
    (∀ step remaining b, model step = .act b →
      run_from model step (remaining + 1) = run_from model (step + 1) remaining) ∧
    (∀ step remaining, model step = .parseFailure →
      run_from model step (remaining + 1) = run_from model (step + 1) remaining) := by
  refine ⟨?_, ?_, ?_, ?_⟩
  · intro h
    have := run_from_no_finish model h max_steps 0
    simpa [agent_run] using this
  · have := run_from_steps_le model max_steps 0
    simpa [agent_run] using this
  · intro step remaining b hm
    simp only [run_from, hm]
  · intro step remaining hm
    simp only [run_from, hm]

/-- Witness for C8 at a concrete model that keeps acting and never finishes:
with `max_steps = 5` (the integration-test configuration) the run aborts at
the step limit with a final step count of exactly 5. -/
theorem agent_loop_step_limit_witness :
    agent_run 5 (fun _ => .act true) = .stepLimitExceeded 5 ∧
    run_steps (agent_run 5 (fun _ => .act true)) ≤ 5 := by
  constructor
  · exact (agent_loop_step_limit 5 (fun _ => .act true)).1
      (fun i msg h => by cases h)
  · exact (agent_loop_step_limit 5 (fun _ => .act true)).2.1

/-! ## Action parser (modelled from the spec)

Modelled from the spec: `parse_action` lives in
`phone_agent/actions/handler.py`, which is not among the provided source
files (only its tests are). The parser consumes one Python call expression
(spec 4.1 and 9: a literal-only evaluator over a closed grammar of call
name, keyword arguments and literals). -/

mutual

/-- Modelled from the spec: abstract syntax of candidate argument
expressions — string literals, number literals, list displays, plus the
three rejected node kinds a hostile model response can contain: name
lookups, attribute accesses and nested calls. -/
inductive PyExpr where
  | strLit (s : String)
  | numLit (n : Int)
  | listLit (xs : PyExprList)
  | name (id : String)
  | attr (obj : PyExpr) (fld : String)
  | call (fn : PyExpr) (args : PyExprList) (kwargs : PyKwargs)

/-- List of expressions (elements of a list display, or positional
arguments). -/
inductive PyExprList where
  | nil
  | cons (e : PyExpr) (es : PyExprList)

/-- Keyword arguments of a call, in source order. -/
inductive PyKwargs where
  | nil
  | cons (key : String) (v : PyExpr) (rest : PyKwargs)

end

/-- Value of a successfully evaluated literal: the string/number/list
literals the spec allows as argument values. -/
inductive PyLit where
  | str (s : String)
  | int (n : Int)
  | list (xs : List PyLit)

mutual

/-- Modelled from the spec: the literal-only expression evaluator (the role
`ast.literal_eval` plays per the handler tests). Strings, numbers and lists
of literals evaluate; a name lookup, attribute access or call anywhere makes
evaluation fail. -/
def literal_eval : PyExpr → Option PyLit
  | .strLit s => some (.str s)
  | .numLit n => some (.int n)
  | .listLit xs => (literal_eval_list xs).map PyLit.list
  | .name _ => none
  | .attr _ _ => none
  | .call _ _ _ => none

/-- Literal evaluation of every element of an expression list. -/
def literal_eval_list : PyExprList → Option (List PyLit)
  | .nil => some []
  | .cons e es =>
    match literal_eval e, literal_eval_list es with
    | some v, some vs => some (v :: vs)
    | _, _ => none

end

mutual

/-- Whether an expression contains, at any nesting depth, a node that is not
a string/number/list literal: a call, a name lookup, or an attribute
access. -/
def has_non_literal : PyExpr → Bool
  | .strLit _ => false
  | .numLit _ => false
  | .listLit xs => has_non_literal_list xs
  | .name _ => true
  | .attr _ _ => true
  | .call _ _ _ => true

/-- Whether some element of an expression list contains a non-literal
node. -/
def has_non_literal_list : PyExprList → Bool
  | .nil => false
  | .cons e es => has_non_literal e || has_non_literal_list es

end

/-- Whether some keyword-argument value contains a non-literal node at any
nesting depth. -/
def kwargs_non_literal : PyKwargs → Bool
  | .nil => false
  | .cons _ v rest => has_non_literal v || kwargs_non_literal rest

/-- Evaluation of all keyword arguments to literal values, in order; fails
when any value fails the literal-only evaluator. -/
def eval_kwargs : PyKwargs → Option (List (String × PyLit))
  | .nil => some []
  | .cons k v rest =>
    match literal_eval v, eval_kwargs rest with
    | some lv, some lrest => some ((k, lv) :: lrest)
    | _, _ => none

/-- Lookup of a keyword in the evaluated argument list. -/
def kv_lookup : List (String × PyLit) → String → Option PyLit
  | [], _ => none
  | (k, v) :: rest, key => if k = key then some v else kv_lookup rest key

/-- Modelled from the spec: the closed enumeration of recognized action
names (spec 4.1). -/
def action_names : List String :=
  ["Tap", "DoubleTap", "LongPress", "Swipe", "Back", "Home", "LaunchApp",
    "Type", "Wait"]

/-- Modelled from the spec: `parse(text) -> Action`, with `ParseError`
represented as the error branch (the implementation raises it as a
`ValueError`). Exactly two call shapes are accepted — `do(action=..., ...)`
and `finish(message=...)` — with no positional arguments, a plain name as
call head, every argument value a literal, and the required parameter
(`action`, a recognized name, respectively `message`, a string) present. The
result pairs the call name with the evaluated keyword arguments (the shape
of the dict the handler tests expect). -/
def parse_action (e : PyExpr) : Except String (String × List (String × PyLit)) :=
  match e with
  | .call (.name fname) .nil kwargs =>
    if fname = "do" then
      match eval_kwargs kwargs with
      | none => .error "ParseError: argument values must be literals"
      | some kvs =>
        match kv_lookup kvs "action" with
        | some (.str a) =>
          if action_names.contains a then .ok ("do", kvs)
          else .error "ParseError: unrecognized action name"
        | _ => .error "ParseError: missing or mistyped parameter action"
    else if fname = "finish" then
      match eval_kwargs kwargs with
      | none => .error "ParseError: argument values must be literals"
      | some kvs =>
        match kv_lookup kvs "message" with
        | some (.str _) => .ok ("finish", kvs)
        | _ => .error "ParseError: missing or mistyped parameter message"
    else .error "ParseError: unknown call name"
  | .call _ _ _ => .error "ParseError: call head must be the name do or finish"
  | _ => .error "ParseError: input must be a single call expression"

/-- Whether parsing succeeded. -/
def except_ok : Except ε α → Bool
  | .ok _ => true
  | .error _ => false

mutual

/-- Helper: an expression containing a non-literal node at any depth fails
the literal-only evaluator. -/
theorem literal_eval_none_of_non_literal (e : PyExpr)
    (h : has_non_literal e = true) : literal_eval e = none := by
  cases e with
  | strLit s => simp [has_non_literal] at h
  | numLit n => simp [has_non_literal] at h
  | listLit xs =>
    have hl : has_non_literal_list xs = true := h
    rw [literal_eval, literal_eval_list_none_of_non_literal xs hl]
    rfl
  | name id => rfl
  | attr obj fld => rfl
  | call fn args kwargs => rfl

/-- Helper: an expression list containing a non-literal node fails
element-wise literal evaluation. -/
theorem literal_eval_list_none_of_non_literal (es : PyExprList)
    (h : has_non_literal_list es = true) : literal_eval_list es = none := by
  cases es with
  | nil => simp [has_non_literal_list] at h
  | cons e es =>
    rw [has_non_literal_list, Bool.or_eq_true] at h
    cases hh : has_non_literal e with
    | true =>
      rw [literal_eval_list, literal_eval_none_of_non_literal e hh]
    | false =>
      have h2 : has_non_literal_list es = true := by
        rcases h with h | h
        · rw [hh] at h; cases h
        · exact h
      rw [literal_eval_list, literal_eval_list_none_of_non_literal es h2]
      cases literal_eval e <;> rfl

end

mutual

/-- Helper: an expression built only from literals evaluates successfully. -/
theorem literal_eval_some_of_literal (e : PyExpr)
    (h : has_non_literal e = false) : (literal_eval e).isSome = true := by
  cases e with
  | strLit s => rfl
  | numLit n => rfl
  | listLit xs =>
    have hl : has_non_literal_list xs = false := h
    have h2 := literal_eval_list_some_of_literal xs hl
    rw [literal_eval]
    cases hx : literal_eval_list xs with
    | none => rw [hx] at h2; cases h2
    | some vs => rfl
  | name id => simp [has_non_literal] at h
  | attr obj fld => simp [has_non_literal] at h
  | call fn args kwargs => simp [has_non_literal] at h

/-- Helper: an expression list built only from literals evaluates
successfully element-wise. -/
theorem literal_eval_list_some_of_literal (es : PyExprList)
    (h : has_non_literal_list es = false) : (literal_eval_list es).isSome = true := by
  cases es with
  | nil => rfl
  | cons e es =>
    rw [has_non_literal_list, Bool.or_eq_false_iff] at h
    have h1 := literal_eval_some_of_literal e h.1
    have h2 := literal_eval_list_some_of_literal es h.2
    rw [literal_eval_list]
    cases hx : literal_eval e with
    | none => rw [hx] at h1; cases h1
    | some v =>
      cases hy : literal_eval_list es with
      | none => rw [hy] at h2; cases h2
      | some vs => rfl

end

/-- Helper: keyword arguments containing a non-literal value at any depth
fail to evaluate. -/
theorem eval_kwargs_none_of_non_literal :
    ∀ kwargs, kwargs_non_literal kwargs = true → eval_kwargs kwargs = none
  | .nil, h => by simp [kwargs_non_literal] at h
  | .cons k v rest, h => by
    rw [kwargs_non_literal, Bool.or_eq_true] at h
    cases hh : has_non_literal v with
    | true =>
      rw [eval_kwargs, literal_eval_none_of_non_literal v hh]
    | false =>
      have h2 : kwargs_non_literal rest = true := by
        rcases h with h | h
        · rw [hh] at h; cases h
        · exact h
      rw [eval_kwargs, eval_kwargs_none_of_non_literal rest h2]
      cases literal_eval v <;> rfl

/-- Helper: keyword arguments whose values are all literal evaluate
successfully. -/
theorem eval_kwargs_some_of_literal :
    ∀ kwargs, kwargs_non_literal kwargs = false → (eval_kwargs kwargs).isSome = true
  | .nil, _ => rfl
  | .cons k v rest, h => by
    rw [kwargs_non_literal, Bool.or_eq_false_iff] at h
    have h1 := literal_eval_some_of_literal v h.1
    have h2 := eval_kwargs_some_of_literal rest h.2
    rw [eval_kwargs]
    cases hx : literal_eval v with
    | none => rw [hx] at h1; cases h1
    | some lv =>
      cases hy : eval_kwargs rest with
      | none => rw [hy] at h2; cases h2
      | some lrest => rfl

/-! ## Claim C1 -/

/-- C1: the parser rejects, with a `ParseError` (the error branch), every
input in which any argument value contains a call, a name lookup, or an
attribute access at any nesting depth, as well as any input that is not a
call of the plain name `do` or `finish` (a bare name, an attribute access, a
call with a computed head, positional arguments, or an unknown call name);
keyword arguments whose values are all string/number/list literals evaluate,
and the two accepted shapes — `do(action="<Name>", ...)` with a recognized
action name and `finish(message="<text>")` — parse to the corresponding
tagged result. -/
theorem parse_action_spec (fn : PyExpr) (args : PyExprList) (kwargs : PyKwargs) :
    (kwargs_non_literal kwargs = true →
      except_ok (parse_action (.call fn args kwargs)) = false) ∧
    (∀ s, except_ok (parse_action (.name s)) = false) ∧
    (∀ obj fld, except_ok (parse_action (.attr obj fld)) = false) ∧
    (∀ fname, fname ≠ "do" → fname ≠ "finish" →
      except_ok (parse_action (.call (.name fname) args kwargs)) = false) ∧
    (kwargs_non_literal kwargs = false → (eval_kwargs kwargs).isSome = true) ∧
    (∀ kvs, eval_kwargs kwargs = some kvs →
      (∀ a, kv_lookup kvs "action" = some (.str a) → action_names.contains a = true →
        parse_action (.call (.name "do") .nil kwargs) = .ok ("do", kvs)) ∧
      (∀ m, kv_lookup kvs "message" = some (.str m) →
        parse_action (.call (.name "finish") .nil kwargs) = .ok ("finish", kvs))) := by
  refine ⟨?_, fun s => rfl, fun obj fld => rfl, ?_, eval_kwargs_some_of_literal kwargs, ?_⟩
  · intro h
    have he := eval_kwargs_none_of_non_literal kwargs h
    cases fn with
    | name fname =>
      cases args with
      | nil =>
        by_cases hdo : fname = "do"
        · subst hdo
          simp [parse_action, he, except_ok]
        · by_cases hfin : fname = "finish"
          · subst hfin
            simp [parse_action, he, except_ok]
          · simp [parse_action, hdo, hfin, except_ok]
      | cons a as => rfl
    | strLit s => rfl
    | numLit n => rfl
    | listLit xs => rfl
    | attr obj fld => rfl
    | call f2 a2 k2 => rfl
  · intro fname h1 h2
    cases args with
    | nil => simp [parse_action, h1, h2, except_ok]
    | cons a as => rfl
  · intro kvs hkvs
    constructor
    · intro a hla hca
      have hmem : a ∈ action_names := by simpa using hca
      simp [parse_action, hkvs, hla, hca, hmem]
    · intro m hlm
      simp [parse_action, hkvs, hlm]

/-- Witness for C1 at concrete inputs: the well-formed tap request of the
handler tests parses to the expected tagged pair, and the malicious request
passing a nested `__import__` call as an argument value is rejected. -/
theorem parse_action_spec_witness :
    parse_action (.call (.name "do") .nil
        (.cons "action" (.strLit "Tap")
          (.cons "element"
            (.listLit (.cons (.numLit 500) (.cons (.numLit 300) .nil)))
            .nil))) =
      .ok ("do", [("action", .str "Tap"), ("element", .list [.int 500, .int 300])]) ∧
    except_ok (parse_action (.call (.name "do") .nil
        (.cons "action"
          (.call (.name "__import__") (.cons (.strLit "os") .nil) .nil)
          .nil))) = false := by
  constructor
  · exact ((parse_action_spec (.name "do") .nil
        (.cons "action" (.strLit "Tap")
          (.cons "element"
            (.listLit (.cons (.numLit 500) (.cons (.numLit 300) .nil)))
            .nil))).2.2.2.2.2
      [("action", .str "Tap"), ("element", .list [.int 500, .int 300])] rfl).1
      "Tap" rfl rfl
  · exact (parse_action_spec (.name "do") .nil
      (.cons "action"
        (.call (.name "__import__") (.cons (.strLit "os") .nil) .nil)
        .nil)).1 rfl
